import Mathlib

/-!
# Verification of the skayn-ai trading engine core

Shallow embedding, in Lean 4, of the decision engine of the skayn-ai
repository: the indicator pipeline (`src/core/market-data.js`), the two
signal-fusion strategies (`src/strategies/moving-average-strategy.js` and
the enhanced multi-indicator strategy), the risk gate
(`src/risk/risk-manager.js`), the exchange client position fetch
(`src/core/lnmarkets.js`), and the decision/reconciliation/panic logic of
`src/goose/trading-agent.js`.

JavaScript numbers are modelled as `ℚ` (the arithmetic in scope is exact:
sums, differences, products, divisions; `Math.sqrt` is modelled as an
explicit function parameter `sqrtFn` where it occurs, since no claim
depends on its value). JS `null`/`undefined` results are modelled as
`Option`; JS falsiness of a numeric value (`!x` true for both `null` and
`0`) is modelled explicitly by `qtruthy`. Thrown exceptions are modelled
by `Except`/`Option` inputs at the points where the source has
`try`/`catch`. Mutable fields (`this.state`, accumulators) are threaded
as explicit state values.
-/

/-- Final trade action of a fused decision (`BUY` / `SELL` / `HOLD`). -/
inductive TAction
  | buy
  | sell
  | hold
deriving DecidableEq, Repr

/-- Direction tag of one per-rule signal. Rules may also return the
no-op value `NEUTRAL`. -/
inductive SigDir
  | buy
  | sell
  | hold
  | neutral
deriving DecidableEq, Repr

/-- One per-rule signal `{signal, weight, reason, strength}` as produced by
the strategy rule functions. `strength` is absent (`none`) for rules that
do not set it; the combiners use `signal.strength || 1`. -/
structure RuleSignal where
  dir : SigDir
  weight : ℚ
  reason : String
  strength : Option ℚ := none
deriving DecidableEq, Repr

/-- A fused decision `{action, confidence, reason}` (the `timestamp` and
`metrics` fields of the source object carry no decision content and are
omitted). -/
structure TradeSignal where
  action : TAction
  confidence : ℚ
  reason : String
deriving DecidableEq, Repr

/-- JS truthiness of an optional number: `!x` is true exactly when `x` is
`null`/`undefined` or `0`. -/
def qtruthy : Option ℚ → Bool
  | none => false
  | some q => q != 0

/-- Sum of a list of rationals, as JS `reduce((a, b) => a + b, 0)`. -/
def listSum (xs : List ℚ) : ℚ := xs.foldl (· + ·) 0

/-- `Math.min(...xs)` on a nonempty list; the sources only apply it to
nonempty windows (the empty case, JS `Infinity`, is unreachable behind the
length guards and is given the default `0`). -/
def listMin : List ℚ → ℚ
  | [] => 0
  | h :: t => t.foldl min h

/-- `Math.max(...xs)` on a nonempty list (same convention as `listMin`). -/
def listMax : List ℚ → ℚ
  | [] => 0
  | h :: t => t.foldl max h

/-- JS `Array.prototype.lastIndexOf`: index of the last occurrence of `v`,
`-1` when absent. -/
def lastIndexOf (xs : List ℚ) (v : ℚ) : Int :=
  (xs.foldl (fun (acc : Int × Int) x =>
    (if x = v then acc.2 else acc.1, acc.2 + 1)) (-1, 0)).1

/-- JS `arr.slice(-n)`: the last `n` elements. -/
def lastN (xs : List ℚ) (n : Nat) : List ℚ := xs.drop (xs.length - n)

namespace MarketData

/-!
## Indicator pipeline — `MarketDataManager` (`src/core/market-data.js`)

`priceHistory` is the ordered list of sample prices (oldest first); only
the `price` field of each sample is consumed by the indicator functions.
-/

/-- `calculateSMA(period)`: `null` when fewer than `period` samples,
otherwise the mean of the last `period` prices. -/
def calculateSMA (hist : List ℚ) (period : Nat) : Option ℚ :=
  if hist.length < period then none
  else some (listSum (lastN hist period) / (period : ℚ))

/-- `calculateEMA(period)`: `null` when fewer than `period` samples,
otherwise the exponential moving average seeded with the mean of the first
`period` prices and folded over the rest with multiplier `2/(period+1)`. -/
def calculateEMA (hist : List ℚ) (period : Nat) : Option ℚ :=
  if hist.length < period then none
  else
    let multiplier : ℚ := 2 / ((period : ℚ) + 1)
    let seed : ℚ := listSum (hist.take period) / (period : ℚ)
    some ((hist.drop period).foldl (fun ema p => (p - ema) * multiplier + ema) seed)

/-- `calculateRSI(period)`: `null` when fewer than `period + 1` samples
(a window of `period` price *changes* needs `period + 1` prices);
`100` when the average loss is zero, else `100 - 100/(1 + RS)`. -/
def calculateRSI (hist : List ℚ) (period : Nat) : Option ℚ :=
  if hist.length < period + 1 then none
  else
    let changes := List.zipWith (fun prev next => next - prev) hist hist.tail
    let gains := changes.map (fun c => if c > 0 then c else 0)
    let losses := changes.map (fun c => if c < 0 then -c else 0)
    let avgGain := listSum (lastN gains period) / (period : ℚ)
    let avgLoss := listSum (lastN losses period) / (period : ℚ)
    if avgLoss = 0 then some 100
    else some (100 - 100 / (1 + avgGain / avgLoss))

/-- The `{upper, middle, lower, standardDeviation}` record returned by
`calculateBollingerBands`. -/
structure Bands where
  upper : ℚ
  middle : ℚ
  lower : ℚ
  standardDeviation : ℚ
deriving DecidableEq, Repr

/-- `calculateBollingerBands(period, stdDev)`: `null` when fewer than
`period` samples; `sqrtFn` stands for `Math.sqrt`. Behind the length guard
`calculateSMA` is necessarily `some`, so `getD 0` is never taken. -/
def calculateBollingerBands (sqrtFn : ℚ → ℚ) (hist : List ℚ)
    (period : Nat) (stdDev : ℚ) : Option Bands :=
  if hist.length < period then none
  else
    let sma := (calculateSMA hist period).getD 0
    let prices := lastN hist period
    let variance := listSum (prices.map (fun p => (p - sma) ^ 2)) / (period : ℚ)
    let sd := sqrtFn variance
    some ⟨sma + sd * stdDev, sma, sma - sd * stdDev, sd⟩

/-- `getVolatility(period)`: `null` when fewer than `period` samples,
otherwise the annualized standard deviation of the returns over the last
`period + 1` prices (`slice(-period - 1)`). -/
def getVolatility (sqrtFn : ℚ → ℚ) (hist : List ℚ) (period : Nat) : Option ℚ :=
  if hist.length < period then none
  else
    let prices := lastN hist (period + 1)
    let returns := List.zipWith (fun prev next => (next - prev) / prev) prices prices.tail
    let mean := listSum returns / (returns.length : ℚ)
    let variance := listSum (returns.map (fun r => (r - mean) ^ 2)) / (returns.length : ℚ)
    some (sqrtFn variance * sqrtFn 252)

/-- The trend label returned by `getTrend`. -/
inductive Trend
  | bullish
  | bearish
  | neutral
deriving DecidableEq, Repr

/-- `getTrend(shortPeriod, longPeriod)`: `NEUTRAL` when either SMA is
falsy, else classified by the percentage gap between short and long SMA
(`> 1` bullish, `< -1` bearish). -/
def getTrend (hist : List ℚ) (shortPeriod longPeriod : Nat) : Trend :=
  let shortSMA := calculateSMA hist shortPeriod
  let longSMA := calculateSMA hist longPeriod
  if !(qtruthy shortSMA) || !(qtruthy longSMA) then Trend.neutral
  else
    let s := shortSMA.getD 0
    let l := longSMA.getD 0
    let difference := (s - l) / l * 100
    if difference > 1 then Trend.bullish
    else if difference < -1 then Trend.bearish
    else Trend.neutral

end MarketData

namespace MovingAverageStrategy

/-!
## Basic strategy — `MovingAverageStrategy`
(`src/strategies/moving-average-strategy.js`)

`analyze()` reads `getMarketMetrics()` (derived from the price history)
and the recent-loss count from the risk manager; both are threaded explicitly.
The `Math.sqrt` used inside volatility/Bollinger computation is the
`sqrtFn` parameter. Log-string percentage formatting (`toFixed`) is
elided from the human-readable `reason` strings it decorates; no claim
inspects those decorations.
-/

/-- The strategy configuration actually read by the basic strategy
(`config.strategy.rsi`); defaults `30`/`70` from
`config/trading.config.js`. -/
structure Config where
  rsiOversold : ℚ := 30
  rsiOverbought : ℚ := 70
deriving DecidableEq, Repr

/-- `createSignal(action, confidence, reason)`: confidence is clamped
above by `Math.min(confidence, 1)` (no lower clamp in the basic
strategy). -/
def createSignal (action : TAction) (confidence : ℚ) (reason : String) : TradeSignal :=
  ⟨action, min confidence 1, reason⟩

/-- `hasEnoughData(metrics)`: `metrics.sma30 !== null && metrics.rsi !== null`
(a strict null check, not truthiness). -/
def hasEnoughData (sma30 rsi : Option ℚ) : Bool :=
  sma30.isSome && rsi.isSome

/-- `checkMACrossover(shortMA, longMA)`: neutral when either MA is falsy,
else a `BUY`/`SELL` signal of weight `0.4` when the percentage gap exceeds
`±0.1`. -/
def checkMACrossover (shortMA longMA : Option ℚ) : RuleSignal :=
  if !(qtruthy shortMA) || !(qtruthy longMA) then
    ⟨SigDir.neutral, 0, "MA data unavailable", none⟩
  else
    let s := shortMA.getD 0
    let l := longMA.getD 0
    let difference := (s - l) / l * 100
    if difference > 0.1 then
      ⟨SigDir.buy, 0.4, "Short MA above long MA (bullish)", some (min (|difference| / 2) 1)⟩
    else if difference < -0.1 then
      ⟨SigDir.sell, 0.4, "Short MA below long MA (bearish)", some (min (|difference| / 2) 1)⟩
    else ⟨SigDir.neutral, 0, "No MA signal", none⟩

/-- `checkRSI(rsi)`: neutral when the RSI is falsy, else oversold → BUY /
overbought → SELL of weight `0.3`. -/
def checkRSI (cfg : Config) (rsi : Option ℚ) : RuleSignal :=
  if !(qtruthy rsi) then ⟨SigDir.neutral, 0, "RSI unavailable", none⟩
  else
    let r := rsi.getD 0
    if r < cfg.rsiOversold then
      ⟨SigDir.buy, 0.3, "RSI oversold", some ((cfg.rsiOversold - r) / cfg.rsiOversold)⟩
    else if r > cfg.rsiOverbought then
      ⟨SigDir.sell, 0.3, "RSI overbought",
        some ((r - cfg.rsiOverbought) / (100 - cfg.rsiOverbought))⟩
    else ⟨SigDir.neutral, 0, "RSI neutral", none⟩

/-- `checkBollingerBands(currentPrice, bands)`: neutral when the bands are
`null` or the current price falsy, else band touches of weight `0.2`. -/
def checkBollingerBands (currentPrice : Option ℚ) (bands : Option MarketData.Bands) :
    RuleSignal :=
  if bands.isNone || !(qtruthy currentPrice) then
    ⟨SigDir.neutral, 0, "BB data unavailable", none⟩
  else
    let b := bands.getD ⟨0, 0, 0, 0⟩
    let p := currentPrice.getD 0
    let percentFromLower := (p - b.lower) / b.lower * 100
    let percentFromUpper := (b.upper - p) / p * 100
    if p ≤ b.lower then
      ⟨SigDir.buy, 0.2, "Price at lower Bollinger Band", some (min (|percentFromLower| / 2) 1)⟩
    else if p ≥ b.upper then
      ⟨SigDir.sell, 0.2, "Price at upper Bollinger Band", some (min (|percentFromUpper| / 2) 1)⟩
    else ⟨SigDir.neutral, 0, "Price within BB range", none⟩

/-- `checkTrend(trend)`: fixed-weight `0.1` directional signal from the
trend label. -/
def checkTrend : MarketData.Trend → RuleSignal
  | MarketData.Trend.bullish => ⟨SigDir.buy, 0.1, "Bullish trend", none⟩
  | MarketData.Trend.bearish => ⟨SigDir.sell, 0.1, "Bearish trend", none⟩
  | MarketData.Trend.neutral => ⟨SigDir.neutral, 0, "No clear trend", none⟩

/-- `signal.strength || 1`: JS `||` replaces both an absent and a zero
strength with `1`. -/
def effStrength (s : RuleSignal) : ℚ :=
  match s.strength with
  | none => 1
  | some q => if q = 0 then 1 else q

/-- Weighted BUY accumulator of a combiner pass: `weight × strength`
summed over the BUY signals. -/
def buyWeight (signals : List RuleSignal) : ℚ :=
  listSum ((signals.filter (fun s => s.dir = SigDir.buy)).map
    (fun s => s.weight * effStrength s))

/-- Weighted SELL accumulator, symmetric to `buyWeight`. -/
def sellWeight (signals : List RuleSignal) : ℚ :=
  listSum ((signals.filter (fun s => s.dir = SigDir.sell)).map
    (fun s => s.weight * effStrength s))

/-- The decision threshold of the basic strategy on the net weighted signal
(the literal `0.1` of `combineSignals`). -/
def basicThreshold : ℚ := 0.1

/-- `combineSignals(signals)` of the basic strategy: accumulate BUY and
SELL contributions separately, take `net = buy − sell`, decide by
`±basicThreshold`, with `confidence = |net|`. -/
def combineSignals (signals : List RuleSignal) : TradeSignal :=
  if signals.isEmpty then createSignal TAction.hold 0 "No signals generated"
  else
    let netSignal := buyWeight signals - sellWeight signals
    let confidence := |netSignal|
    let reasons := String.intercalate ", " ((signals.filter
      (fun s => s.dir = SigDir.buy ∨ s.dir = SigDir.sell)).map RuleSignal.reason)
    if netSignal > basicThreshold then createSignal TAction.buy confidence reasons
    else if netSignal < -basicThreshold then createSignal TAction.sell confidence reasons
    else createSignal TAction.hold confidence "Insufficient signal strength"

/-- `applyRiskFilters(signal, volatility)`: force HOLD with halved
confidence under high volatility and low confidence (JS `null > 0.5` is
false, so an unavailable volatility passes), and force HOLD with 0.3×
confidence after ≥ 3 recent losses. -/
def applyRiskFilters (recentLosses : Nat) (signal : TradeSignal)
    (volatility : Option ℚ) : TradeSignal :=
  let highVol := match volatility with
    | none => false
    | some v => v > 0.5
  if highVol && signal.confidence < 0.7 then
    createSignal TAction.hold (signal.confidence * 0.5) "High volatility - reducing position"
  else if recentLosses ≥ 3 then
    createSignal TAction.hold (signal.confidence * 0.3) "Recent losses detected - pausing trading"
  else signal

/-- `analyze()` of the basic strategy, as written in the source: the
demo-mode branch returns a forced `SELL 0.8` whenever the current price is
truthy; otherwise the insufficient-data guard, the four rule checks, the
combiner, and the risk filters run in order. `recentLosses` is
`riskManager.getRecentLosses(5)`. -/
def analyzeBody (sqrtFn : ℚ → ℚ) (cfg : Config) (recentLosses : Nat)
    (currentPrice : Option ℚ) (hist : List ℚ) : TradeSignal :=
  if qtruthy currentPrice then
    createSignal TAction.sell 0.8 "DEMO: Forced trade execution test"
  else
    let sma10 := MarketData.calculateSMA hist 10
    let sma30 := MarketData.calculateSMA hist 30
    let rsi := MarketData.calculateRSI hist 14
    let trend := MarketData.getTrend hist 10 30
    let volatility := MarketData.getVolatility sqrtFn hist 20
    let bollingerBands := MarketData.calculateBollingerBands sqrtFn hist 20 2
    if !(hasEnoughData sma30 rsi) then createSignal TAction.hold 0 "Insufficient data"
    else
      let candidates := [checkMACrossover sma10 sma30, checkRSI cfg rsi,
        checkBollingerBands currentPrice bollingerBands, checkTrend trend]
      let signals := candidates.filter (fun s => s.dir ≠ SigDir.neutral)
      let finalSignal := combineSignals signals
      applyRiskFilters recentLosses finalSignal volatility

/-- `analyze()` including its surrounding `try`/`catch`: an internal
exception (modelled as the `.error` case of the input) is caught and
mapped to `HOLD` with confidence `0` and reason `"Analysis error"`. -/
def analyze (sqrtFn : ℚ → ℚ) (cfg : Config) (recentLosses : Nat)
    (input : Except Unit (Option ℚ × List ℚ)) : TradeSignal :=
  match input with
  | Except.error _ => createSignal TAction.hold 0 "Analysis error"
  | Except.ok (currentPrice, hist) =>
      analyzeBody sqrtFn cfg recentLosses currentPrice hist

end MovingAverageStrategy

namespace EnhancedTradingStrategy

/-!
## Enhanced strategy — `EnhancedTradingStrategy`
(`src/strategies/enhanced-strategy.js`)

The raw indicator series (MACD, RSI, StochRSI, Bollinger, EMAs) are
computed by the external `technicalindicators` npm library, which is out
of scope; `calculateIndicators` is therefore modelled at its boundary:
the already-sliced arrays it returns are the `Indicators` input of the
analysis functions. The local configuration constants of the strategy
(divergence lookback `10`, min strength `0.6`, RSI bands `30`/`70`) are
local literals of the source file, embedded as literals. Count
decorations inside confluence reason strings (`(${n} signals)`) are
elided; no claim inspects them.
-/

/-- One MACD series point `{MACD, signal}` (the histogram field is not
consumed by the strategy). -/
structure MacdPoint where
  macd : ℚ
  signal : ℚ
deriving DecidableEq, Repr

/-- One StochRSI series point `{k, d}`. -/
structure StochPoint where
  k : ℚ
  d : ℚ
deriving DecidableEq, Repr

/-- One Bollinger series point `{upper, middle, lower}`. -/
structure BBPoint where
  upper : ℚ
  middle : ℚ
  lower : ℚ
deriving DecidableEq, Repr

/-- The record returned by `calculateIndicators`: library outputs sliced
to the last 10/20 entries, plus the last 20 closes. -/
structure Indicators where
  macd : List MacdPoint
  rsi : List ℚ
  stochRsi : List StochPoint
  bollinger : List BBPoint
  emaFast : List ℚ
  emaSlow : List ℚ
  prices : List ℚ
deriving DecidableEq, Repr

/-- `createSignal` of the enhanced strategy: confidence clamped into
`[0, 1]` by `Math.min(Math.max(confidence, 0), 1)`. -/
def createSignal (action : TAction) (confidence : ℚ) (reason : String) : TradeSignal :=
  ⟨action, min (max confidence 0) 1, reason⟩

/-- `analyzeMACDSignal(macdData)`: signal-line crossovers (weight `0.3`)
then zero-line crossovers (weight `0.2`) on the last two points. -/
def analyzeMACDSignal (macdData : List MacdPoint) : RuleSignal :=
  if macdData.length < 3 then ⟨SigDir.neutral, 0, "MACD insufficient data", none⟩
  else
    let current := macdData.getD (macdData.length - 1) ⟨0, 0⟩
    let previous := macdData.getD (macdData.length - 2) ⟨0, 0⟩
    if previous.macd ≤ previous.signal ∧ current.macd > current.signal then
      ⟨SigDir.buy, 0.3, "MACD bullish crossover", some (min (|current.macd - current.signal| / 100) 1)⟩
    else if previous.macd ≥ previous.signal ∧ current.macd < current.signal then
      ⟨SigDir.sell, 0.3, "MACD bearish crossover", some (min (|current.macd - current.signal| / 100) 1)⟩
    else if previous.macd ≤ 0 ∧ current.macd > 0 then
      ⟨SigDir.buy, 0.2, "MACD bullish zero cross", some (min (current.macd / 50) 1)⟩
    else if previous.macd ≥ 0 ∧ current.macd < 0 then
      ⟨SigDir.sell, 0.2, "MACD bearish zero cross", some (min (|current.macd| / 50) 1)⟩
    else ⟨SigDir.neutral, 0, "No MACD signal", none⟩

/-- The divergence lookback window (`this.config.divergence.lookback`). -/
def divergenceLookback : Nat := 10

/-- The divergence strength constant (`this.config.divergence.minStrength`). -/
def divergenceMinStrength : ℚ := 0.6

/-- The common body of `analyzeMACDDivergence` and `analyzeRSIDivergence`
(the two source functions are textually identical up to the oscillator
series and the produced signals): whole-window extrema via
`Math.min/max`, their last indices via `lastIndexOf`, the `> 5` index
gates, the pre-extremum slices (`slice(0, extremumIndex)`), and the
bullish-before-bearish fallthrough. -/
def divergenceScan (recentPrices oscValues : List ℚ)
    (bullSig bearSig noSig : RuleSignal) : RuleSignal :=
  let priceHigh := listMax recentPrices
  let priceLow := listMin recentPrices
  let priceHighIndex := lastIndexOf recentPrices priceHigh
  let priceLowIndex := lastIndexOf recentPrices priceLow
  let oscHigh := listMax oscValues
  let oscLow := listMin oscValues
  let oscHighIndex := lastIndexOf oscValues oscHigh
  let oscLowIndex := lastIndexOf oscValues oscLow
  let bullish : Option RuleSignal :=
    if priceLowIndex > 5 ∧ oscLowIndex > 5 then
      let prevPriceLows := recentPrices.take priceLowIndex.toNat
      let prevOscLows := oscValues.take oscLowIndex.toNat
      if prevPriceLows.length > 0 ∧ prevOscLows.length > 0 then
        if priceLow < listMin prevPriceLows ∧ oscLow > listMin prevOscLows then
          some bullSig
        else none
      else none
    else none
  match bullish with
  | some s => s
  | none =>
    let bearish : Option RuleSignal :=
      if priceHighIndex > 5 ∧ oscHighIndex > 5 then
        let prevPriceHighs := recentPrices.take priceHighIndex.toNat
        let prevOscHighs := oscValues.take oscHighIndex.toNat
        if prevPriceHighs.length > 0 ∧ prevOscHighs.length > 0 then
          if priceHigh > listMax prevPriceHighs ∧ oscHigh < listMax prevOscHighs then
            some bearSig
          else none
        else none
      else none
    match bearish with
    | some s => s
    | none => noSig

/-- `analyzeMACDDivergence(prices, macdData)`: divergence scan over the
last `lookback` closes and MACD-line values, weight `0.4`. -/
def analyzeMACDDivergence (prices : List ℚ) (macdData : List MacdPoint) : RuleSignal :=
  if prices.length < 10 ∨ macdData.length < 10 then
    ⟨SigDir.neutral, 0, "Insufficient data for MACD divergence", none⟩
  else
    divergenceScan (lastN prices divergenceLookback)
      ((macdData.drop (macdData.length - divergenceLookback)).map MacdPoint.macd)
      ⟨SigDir.buy, 0.4, "MACD bullish divergence detected", some divergenceMinStrength⟩
      ⟨SigDir.sell, 0.4, "MACD bearish divergence detected", some divergenceMinStrength⟩
      ⟨SigDir.neutral, 0, "No MACD divergence", none⟩

/-- `analyzeRSISignal(rsiData)`: oversold/overbought levels (weight
`0.25`) then the 50-line momentum shift (weight `0.15`). -/
def analyzeRSISignal (rsiData : List ℚ) : RuleSignal :=
  if rsiData.length < 3 then ⟨SigDir.neutral, 0, "RSI insufficient data", none⟩
  else
    let current := rsiData.getD (rsiData.length - 1) 0
    let previous := rsiData.getD (rsiData.length - 2) 0
    if current < 30 then
      ⟨SigDir.buy, 0.25, "RSI oversold", some ((30 - current) / 30)⟩
    else if current > 70 then
      ⟨SigDir.sell, 0.25, "RSI overbought", some ((current - 70) / (100 - 70))⟩
    else if previous < 50 ∧ current > 50 then
      ⟨SigDir.buy, 0.15, "RSI bullish momentum shift", some ((current - 50) / 50)⟩
    else if previous > 50 ∧ current < 50 then
      ⟨SigDir.sell, 0.15, "RSI bearish momentum shift", some ((50 - current) / 50)⟩
    else ⟨SigDir.neutral, 0, "RSI neutral", none⟩

/-- `analyzeRSIDivergence(prices, rsiData)`: identical structure to the
MACD divergence, over the raw RSI values, with weight `0.35`. -/
def analyzeRSIDivergence (prices : List ℚ) (rsiData : List ℚ) : RuleSignal :=
  if prices.length < 10 ∨ rsiData.length < 10 then
    ⟨SigDir.neutral, 0, "Insufficient data for RSI divergence", none⟩
  else
    divergenceScan (lastN prices divergenceLookback) (lastN rsiData divergenceLookback)
      ⟨SigDir.buy, 0.35, "RSI bullish divergence", some divergenceMinStrength⟩
      ⟨SigDir.sell, 0.35, "RSI bearish divergence", some divergenceMinStrength⟩
      ⟨SigDir.neutral, 0, "No RSI divergence", none⟩

/-- `analyzeStochRSI(stochRsiData)`: K/D crossovers inside the
oversold/overbought bands, weight `0.2`. -/
def analyzeStochRSI (stochRsiData : List StochPoint) : RuleSignal :=
  if stochRsiData.length < 2 then ⟨SigDir.neutral, 0, "StochRSI insufficient data", none⟩
  else
    let current := stochRsiData.getD (stochRsiData.length - 1) ⟨0, 0⟩
    let previous := stochRsiData.getD (stochRsiData.length - 2) ⟨0, 0⟩
    if current.k > current.d ∧ previous.k ≤ previous.d ∧ current.k < 0.2 then
      ⟨SigDir.buy, 0.2, "StochRSI bullish crossover in oversold", some ((0.2 - current.k) / 0.2)⟩
    else if current.k < current.d ∧ previous.k ≥ previous.d ∧ current.k > 0.8 then
      ⟨SigDir.sell, 0.2, "StochRSI bearish crossover in overbought", some ((current.k - 0.8) / 0.2)⟩
    else ⟨SigDir.neutral, 0, "No StochRSI signal", none⟩

/-- `analyzeEMACrossover(emaFast, emaSlow)`: golden/death cross on the
last two points of each series, weight `0.25`. -/
def analyzeEMACrossover (emaFast emaSlow : List ℚ) : RuleSignal :=
  if emaFast.length < 2 ∨ emaSlow.length < 2 then
    ⟨SigDir.neutral, 0, "EMA insufficient data", none⟩
  else
    let currentFast := emaFast.getD (emaFast.length - 1) 0
    let currentSlow := emaSlow.getD (emaSlow.length - 1) 0
    let prevFast := emaFast.getD (emaFast.length - 2) 0
    let prevSlow := emaSlow.getD (emaSlow.length - 2) 0
    if prevFast ≤ prevSlow ∧ currentFast > currentSlow then
      ⟨SigDir.buy, 0.25, "EMA golden cross", some (min ((currentFast - currentSlow) / currentSlow * 100) 1)⟩
    else if prevFast ≥ prevSlow ∧ currentFast < currentSlow then
      ⟨SigDir.sell, 0.25, "EMA death cross", some (min ((currentSlow - currentFast) / currentFast * 100) 1)⟩
    else ⟨SigDir.neutral, 0, "No EMA crossover", none⟩

/-- `analyzeBollingerBands(currentPrice, bbData)`: squeeze detection (a
`HOLD`-direction signal of weight `0.1`) then band-touch signals of
weight `0.2`. -/
def analyzeBollingerBands (currentPrice : ℚ) (bbData : List BBPoint) : RuleSignal :=
  if bbData.length = 0 then ⟨SigDir.neutral, 0, "BB data unavailable", none⟩
  else
    let current := bbData.getD (bbData.length - 1) ⟨0, 0, 0⟩
    let bbWidth := (current.upper - current.lower) / current.middle
    if bbWidth < 0.04 then
      ⟨SigDir.hold, 0.1, "Bollinger Band squeeze - low volatility", some 0.5⟩
    else
      let distanceToLower := (currentPrice - current.lower) / current.lower
      let distanceToUpper := (current.upper - currentPrice) / currentPrice
      if distanceToLower < 0.01 then
        ⟨SigDir.buy, 0.2, "Price near lower Bollinger Band", some (min (|distanceToLower| * 100) 1)⟩
      else if distanceToUpper < 0.01 then
        ⟨SigDir.sell, 0.2, "Price near upper Bollinger Band", some (min (|distanceToUpper| * 100) 1)⟩
      else ⟨SigDir.neutral, 0, "Price within BB range", none⟩

/-- `analyzeConfluence(signals)`: when three or more collected signals
share a direction, a single fixed-weight `0.1` bonus signal in that
direction (BUY checked first), strength `min(count/5, 1)`. -/
def analyzeConfluence (signals : List RuleSignal) : RuleSignal :=
  let buySignals := signals.filter (fun s => s.dir = SigDir.buy)
  let sellSignals := signals.filter (fun s => s.dir = SigDir.sell)
  if buySignals.length ≥ 3 then
    ⟨SigDir.buy, 0.1, "Strong bullish confluence", some (min ((buySignals.length : ℚ) / 5) 1)⟩
  else if sellSignals.length ≥ 3 then
    ⟨SigDir.sell, 0.1, "Strong bearish confluence", some (min ((sellSignals.length : ℚ) / 5) 1)⟩
  else ⟨SigDir.neutral, 0, "No confluence", none⟩

/-- The non-`NEUTRAL` signals collected by `analyzeAllSignals` from the
seven rule analyzers, in source evaluation order, before the confluence
bonus is considered. -/
def baseSignals (ind : Indicators) (currentPrice : ℚ) : List RuleSignal :=
  [analyzeMACDSignal ind.macd,
    analyzeMACDDivergence ind.prices ind.macd,
    analyzeRSISignal ind.rsi,
    analyzeRSIDivergence ind.prices ind.rsi,
    analyzeStochRSI ind.stochRsi,
    analyzeEMACrossover ind.emaFast ind.emaSlow,
    analyzeBollingerBands currentPrice ind.bollinger].filter
      (fun s => s.dir ≠ SigDir.neutral)

/-- `analyzeAllSignals(indicators, currentPrice)`: the collected rule
signals, with the confluence bonus computed over them appended when it is
non-`NEUTRAL`. -/
def analyzeAllSignals (ind : Indicators) (currentPrice : ℚ) : List RuleSignal :=
  let base := baseSignals ind currentPrice
  let confluenceSignal := analyzeConfluence base
  base ++ (if confluenceSignal.dir ≠ SigDir.neutral then [confluenceSignal] else [])

/-- Weighted HOLD accumulator of the enhanced combiner. -/
def holdWeight (signals : List RuleSignal) : ℚ :=
  listSum ((signals.filter (fun s => s.dir = SigDir.hold)).map
    (fun s => s.weight * MovingAverageStrategy.effStrength s))

/-- The decision threshold of the enhanced strategy on the net weighted signal
(the literal `0.15` of its `combineSignals`, commented in the source as
"Higher thresholds for enhanced strategy"). -/
def enhancedThreshold : ℚ := 0.15

/-- `combineSignals(signals)` of the enhanced strategy: BUY, SELL and
HOLD contributions accumulated separately as `weight × (strength || 1)`;
`net = buy − sell`; decide by `±enhancedThreshold`;
`confidence = min(|net| + holdWeight·0.1, 1)`. -/
def combineSignals (signals : List RuleSignal) : TradeSignal :=
  if signals.isEmpty then createSignal TAction.hold 0 "No signals generated"
  else
    let netSignal := MovingAverageStrategy.buyWeight signals -
      MovingAverageStrategy.sellWeight signals
    let confidence := min (|netSignal| + holdWeight signals * 0.1) 1
    let reasons := String.intercalate " | " ((signals.filter
      (fun s => s.dir ≠ SigDir.neutral)).map RuleSignal.reason)
    if netSignal > enhancedThreshold then createSignal TAction.buy confidence reasons
    else if netSignal < -enhancedThreshold then createSignal TAction.sell confidence reasons
    else createSignal TAction.hold confidence "Insufficient signal strength or conflicting signals"

/-- The trend label of `determineTrend`. -/
inductive EnhTrend
  | bullish
  | bearish
  | sideways
  | unknown
deriving DecidableEq, Repr

/-- `calculateTrendDirection(values)`: relative move from first to last,
`0` on fewer than 3 values. -/
def calculateTrendDirection (values : List ℚ) : ℚ :=
  if values.length < 3 then 0
  else ((values.getLast?).getD 0 - values.headD 0) / values.headD 0

/-- `determineTrend(indicators)` over the last five points of each EMA
series; out-of-range `[4]` accesses behave as JS `undefined` comparisons
(false). -/
def determineTrend (ind : Indicators) : EnhTrend :=
  if ind.emaFast.length < 5 then EnhTrend.unknown
  else
    let fastEMA := lastN ind.emaFast 5
    let slowEMA := lastN ind.emaSlow 5
    let fastTrend := calculateTrendDirection fastEMA
    let slowTrend := calculateTrendDirection slowEMA
    let fastGtSlow := match fastEMA.get? 4, slowEMA.get? 4 with
      | some a, some b => a > b
      | _, _ => false
    let fastLtSlow := match fastEMA.get? 4, slowEMA.get? 4 with
      | some a, some b => a < b
      | _, _ => false
    if fastTrend > 0 ∧ slowTrend > 0 ∧ fastGtSlow = true then EnhTrend.bullish
    else if fastTrend < 0 ∧ slowTrend < 0 ∧ fastLtSlow = true then EnhTrend.bearish
    else EnhTrend.sideways

/-- `applyAdvancedRiskFilters(signal, indicators)`: Bollinger-width
volatility dampener, sideways-market filter, and the recent-performance
dampener (`getRecentSignalPerformance(5)` threaded as a parameter). -/
def applyAdvancedRiskFilters (recentPerformance : ℚ) (signal : TradeSignal)
    (ind : Indicators) : TradeSignal :=
  let volFiltered : Option TradeSignal :=
    if ind.bollinger.length > 0 then
      let bb := ind.bollinger.getD (ind.bollinger.length - 1) ⟨0, 0, 0⟩
      let volatility := (bb.upper - bb.lower) / bb.middle
      if volatility > 0.1 ∧ signal.confidence < 0.8 then
        some (createSignal TAction.hold (signal.confidence * 0.6)
          "High volatility - reducing confidence")
      else none
    else none
  match volFiltered with
  | some s => s
  | none =>
    if determineTrend ind = EnhTrend.sideways ∧ signal.action ≠ TAction.hold then
      createSignal TAction.hold (signal.confidence * 0.7)
        "Sideways market - avoiding directional trades"
    else if recentPerformance < 0.3 then
      createSignal signal.action (signal.confidence * 0.5)
        "Recent poor performance - reducing confidence"
    else signal

/-- `hasRequiredIndicators(indicators)` on a non-null record. -/
def hasRequiredIndicators (ind : Indicators) : Bool :=
  ind.macd.length > 3 && ind.rsi.length > 5 &&
    ind.emaFast.length > 2 && ind.emaSlow.length > 2

/-- The body of the enhanced `analyze()`: guards, signal collection,
combination, and risk filters. `indicators = none` models
`calculateIndicators` returning `null` after a library error. -/
def analyzeBody (recentPerformance : ℚ) (currentPrice : Option ℚ)
    (priceDataLength : Nat) (indicators : Option Indicators) : TradeSignal :=
  if !(qtruthy currentPrice) || priceDataLength < 30 then
    createSignal TAction.hold 0 "Insufficient price data"
  else
    match indicators with
    | none => createSignal TAction.hold 0 "Indicators not ready"
    | some ind =>
      if !(hasRequiredIndicators ind) then createSignal TAction.hold 0 "Indicators not ready"
      else
        let signals := analyzeAllSignals ind (currentPrice.getD 0)
        let finalSignal := combineSignals signals
        applyAdvancedRiskFilters recentPerformance finalSignal ind

/-- The enhanced `analyze()` including its `try`/`catch`: an internal
exception is caught and mapped to `HOLD`, confidence `0`, reason
`"Analysis error"`. -/
def analyze (recentPerformance : ℚ)
    (input : Except Unit (Option ℚ × Nat × Option Indicators)) : TradeSignal :=
  match input with
  | Except.error _ => createSignal TAction.hold 0 "Analysis error"
  | Except.ok (currentPrice, priceDataLength, indicators) =>
      analyzeBody recentPerformance currentPrice priceDataLength indicators

end EnhancedTradingStrategy

/-!
## Positions and the mirrored position map

A `Position` as consumed by the engine: `{id, side, quantity, price}`
(`side` is the LN Markets code `"b"`/`"s"`; `price` is the entry price).
The agent mirrors the exchange list in a JS `Map` keyed by id; the map is
modelled as an association list in insertion order, with `Map.set`
replacement semantics.
-/

/-- A position record at the engine boundary. -/
structure Position where
  id : String
  side : String
  quantity : ℚ
  price : ℚ
deriving DecidableEq, Repr

/-- The mirrored position map: association list in JS `Map` insertion
order. -/
abbrev Mirror := List (String × Position)

/-- JS `Map.prototype.set`: replace in place when the key exists,
otherwise append. -/
def mirrorSet (m : Mirror) (k : String) (v : Position) : Mirror :=
  if m.any (fun e => e.1 = k) then m.map (fun e => if e.1 = k then (k, v) else e)
  else m ++ [(k, v)]

/-- Build the mirror from a fetched position list
(`positions.forEach(pos => map.set(pos.id, pos))`). -/
def mkMirror (ps : List Position) : Mirror :=
  ps.foldl (fun m p => mirrorSet m p.id p) []

/-- JS `Map.prototype.has`. -/
def mirrorHas (m : Mirror) (k : String) : Bool :=
  m.any (fun e => e.1 = k)

/-- JS `Array.from(map.values())`. -/
def mirrorValues (m : Mirror) : List Position :=
  m.map Prod.snd

namespace RiskManager

/-!
## Risk gate — `RiskManager` (`src/risk/risk-manager.js`)

`canOpenPosition(side, quantity, leverage)` runs seven checks in a fixed
order and fail-fast returns the first failing reason. Its one `await`
(the `getPositions` call of check 1) is the point where an exception can
enter the surrounding `try`; the fetch result is therefore an `Except`
input, whose `.error` case lands in the `catch` branch. The mutable
session fields it reads (`dailyLoss`, `peakBalance`, the client balance)
and the configuration limits are collected in `RiskState`. The `side`
argument is never used by any check and is omitted.
-/

/-- Configuration limits and mutable session state read by
`canOpenPosition`. -/
structure RiskState where
  positionLimit : Nat
  maxPositionSize : ℚ
  maxLeverage : ℚ
  maxDailyLoss : ℚ
  riskPerTrade : ℚ
  portfolioHeatLimit : ℚ
  maxDrawdownPercentage : ℚ
  dailyLoss : ℚ
  peakBalance : ℚ
  balance : ℚ
deriving DecidableEq, Repr

/-- The `{allowed, reason}` result of the gate. -/
structure RiskResult where
  allowed : Bool
  reason : String
deriving DecidableEq, Repr

/-- `calculateDrawdown(currentBalance)`: the peak is first raised to the
current balance when exceeded (the source mutates `this.peakBalance`;
here the raised peak is local), then the percentage decline from peak is
returned. -/
def calculateDrawdown (peakBalance currentBalance : ℚ) : ℚ :=
  let peak := max peakBalance currentBalance
  (peak - currentBalance) / peak * 100

/-- `calculatePortfolioHeat(positions)`: per-position risk
(`quantity × riskPerTrade / 100`) divided by the balance, as a
percentage, summed. -/
def calculatePortfolioHeat (st : RiskState) (positions : List Position) : ℚ :=
  positions.foldl (fun acc p => acc + (p.quantity * st.riskPerTrade / 100) / st.balance * 100) 0

/-- `canOpenPosition`, checks 1–7 in source order; the `.error` fetch case
is the `catch` branch. -/
def canOpenPosition (st : RiskState) (fetch : Except String (List Position))
    (quantity leverage : ℚ) : RiskResult :=
  match fetch with
  | Except.error _ => ⟨false, "Risk check error"⟩
  | Except.ok currentPositions =>
    if currentPositions.length ≥ st.positionLimit then ⟨false, "Position limit reached"⟩
    else if quantity > st.maxPositionSize then ⟨false, "Position size exceeds limit"⟩
    else if leverage > st.maxLeverage then ⟨false, "Leverage exceeds limit"⟩
    else if |st.dailyLoss| ≥ st.maxDailyLoss then ⟨false, "Daily loss limit reached"⟩
    else
      let requiredMargin := quantity / leverage
      let riskAmount := quantity * st.riskPerTrade / 100
      if st.balance < requiredMargin + riskAmount then ⟨false, "Insufficient balance"⟩
      else
        let currentDrawdown := calculateDrawdown st.peakBalance st.balance
        if currentDrawdown > st.maxDrawdownPercentage then ⟨false, "Drawdown limit exceeded"⟩
        else
          let portfolioHeat := calculatePortfolioHeat st currentPositions
          if portfolioHeat + st.riskPerTrade > st.portfolioHeatLimit then
            ⟨false, "Portfolio heat limit exceeded"⟩
          else ⟨true, "All risk checks passed"⟩

/-- The failure condition of the `k`-th check (0-based, source order),
as a pure predicate of the same state the source reads. -/
def checkFails (st : RiskState) (ps : List Position) (quantity leverage : ℚ) : Nat → Bool
  | 0 => decide (ps.length ≥ st.positionLimit)
  | 1 => decide (quantity > st.maxPositionSize)
  | 2 => decide (leverage > st.maxLeverage)
  | 3 => decide (|st.dailyLoss| ≥ st.maxDailyLoss)
  | 4 => decide (st.balance < quantity / leverage + quantity * st.riskPerTrade / 100)
  | 5 => decide (calculateDrawdown st.peakBalance st.balance > st.maxDrawdownPercentage)
  | 6 => decide (calculatePortfolioHeat st ps + st.riskPerTrade > st.portfolioHeatLimit)
  | _ => false

/-- The rejection reason of the `k`-th check. -/
def checkReason : Nat → String
  | 0 => "Position limit reached"
  | 1 => "Position size exceeds limit"
  | 2 => "Leverage exceeds limit"
  | 3 => "Daily loss limit reached"
  | 4 => "Insufficient balance"
  | 5 => "Drawdown limit exceeded"
  | 6 => "Portfolio heat limit exceeded"
  | _ => ""

/-- The fixed evaluation order of the seven checks. -/
def riskCheckOrder : List Nat := [0, 1, 2, 3, 4, 5, 6]

/-- The first failing check, scanning in source order. -/
def firstFailingCheck (st : RiskState) (ps : List Position)
    (quantity leverage : ℚ) : Option Nat :=
  riskCheckOrder.find? (checkFails st ps quantity leverage)

end RiskManager

namespace LNMarketsClient

/-!
## Exchange client position fetch — `LNMarketsClient.getPositions`
(`src/core/lnmarkets.js`)

The primary API call (`futuresGetTrades` with the running type) and the
fallback (`futuresGetTrades()` over all trades, filtered to the running
ones) are I/O; their outcomes enter as `Except` values. When both fail,
the source *throws* (`Cannot fetch positions from LN Markets API: …`);
the outer `catch` logs and rethrows — it never returns mock data. On
success the private `this.positions` map of the client is rebuilt from the list
and `Array.from(map.values())` is returned.
-/

/-- A raw trade record as returned by the fallback call; the optional
fields model JS `undefined` versus present values for the status flags
checked with `===`. -/
structure RawTrade where
  id : String
  side : String
  quantity : ℚ
  price : ℚ
  running : Option Bool
  openFlag : Option Bool
  state : Option String
  status : Option String
  closed : Option Bool
  canceled : Option Bool
deriving DecidableEq, Repr

/-- The fallback filter for running positions:
running, open, a state or status equal to "open", or closed and
canceled both exactly false. -/
def isRunningTrade (t : RawTrade) : Bool :=
  t.running == some true || t.openFlag == some true ||
    t.state == some "open" || t.status == some "open" ||
    (t.closed == some false && t.canceled == some false)

/-- Projection of a raw trade to the position record the engine uses. -/
def toPosition (t : RawTrade) : Position :=
  ⟨t.id, t.side, t.quantity, t.price⟩

/-- `getPositions()`: primary result, else filtered fallback, else a
thrown error — never a cached or synthetic list. -/
def getPositions (primary : Except String (List Position))
    (fallback : Except String (List RawTrade)) : Except String (List Position) :=
  match primary with
  | Except.ok ps => Except.ok (mirrorValues (mkMirror ps))
  | Except.error e1 =>
    match fallback with
    | Except.ok allTrades =>
        Except.ok (mirrorValues (mkMirror ((allTrades.filter isRunningTrade).map toPosition)))
    | Except.error _ =>
        Except.error ("Cannot fetch positions from LN Markets API: " ++ e1)

end LNMarketsClient

namespace TradingAgent

/-!
## Decision loop, reconciliation and panic —
`GooseTradingAgent` (`src/goose/trading-agent.js`)
-/

/-- A trade settled into P&L bookkeeping for an externally closed
position (the argument record of `pnlTracker.recordTrade`, with source tag
external closure). -/
structure ClosedEvent where
  id : String
  side : String
  quantity : ℚ
  entryPrice : ℚ
  exitPrice : ℚ
deriving DecidableEq, Repr

/-- A newly detected position (the "New position detected" log event). -/
structure OpenedEvent where
  id : String
  side : String
  quantity : ℚ
  price : ℚ
deriving DecidableEq, Repr

/-- The outcome of one `syncPositionTracking` run: the replaced mirror
and the externally-closed / newly-opened events it reported. -/
structure SyncResult where
  mirror : Mirror
  closedEvents : List ClosedEvent
  openedEvents : List OpenedEvent
deriving DecidableEq, Repr

/-- `this.marketData.getLatestPrice() || prevPos.price`: the estimated
exit price for an externally closed position (JS `||`, so a `0` latest
price also falls back). -/
def estimatedExit (latestPrice : Option ℚ) (fallback : ℚ) : ℚ :=
  match latestPrice with
  | some p => if p = 0 then fallback else p
  | none => fallback

/-- `syncPositionTracking(currentPositions)`: the mirror is cleared and
rebuilt from the fetched list (wholesale replacement); positions present
before but absent now are settled with the latest known price as the
estimated exit; positions present now but not before are reported as
newly opened. -/
def syncPositionTracking (prev : Mirror) (currentPositions : List Position)
    (latestPrice : Option ℚ) : SyncResult :=
  let newMirror := mkMirror currentPositions
  let closedEvents := (prev.filter (fun e => !(mirrorHas newMirror e.1))).map
    (fun e => ⟨e.1, e.2.side, e.2.quantity, e.2.price, estimatedExit latestPrice e.2.price⟩)
  let openedEvents := (newMirror.filter (fun e => !(mirrorHas prev e.1))).map
    (fun e => ⟨e.1, e.2.side, e.2.quantity, e.2.price⟩)
  ⟨newMirror, closedEvents, openedEvents⟩

/-- The `lastDecision` record as stored by the decision loop. -/
structure AgentDecision where
  action : TAction
  reason : String
deriving DecidableEq, Repr

/-- The slice of `this.state` touched by the position-sync step of the
decision loop. -/
structure AgentState where
  lastDecision : Option AgentDecision
  activePositions : Mirror
deriving DecidableEq, Repr

/-- The observable outcome of one decision cycle from the position-sync
step onward. -/
structure CycleResult where
  state : AgentState
  closedEvents : List ClosedEvent
  executed : List TradeSignal
deriving DecidableEq, Repr

/-- `makeAutonomousDecision`, from step 0.5 (the critical position sync)
onward. The upstream deposit/responsible-gambling gates (step 0) are
modelled as passed — the claims under verification condition on the
position fetch being reached. `fetch` is the `getPositions()` outcome;
on `.error` the `catch` sets `lastDecision` to the safety HOLD and
returns, leaving the mirror untouched and executing nothing. On `.ok`
the mirror is synced and the strategy decision `signal` (steps 1–4,
condensed to a parameter) is recorded and executed when non-HOLD. -/
def makeAutonomousDecisionFromSync (st : AgentState)
    (fetch : Except String (List Position)) (latestPrice : Option ℚ)
    (signal : TradeSignal) : CycleResult :=
  match fetch with
  | Except.error _ =>
    ⟨⟨some ⟨TAction.hold, "Position tracking failure - trading halted for safety"⟩,
      st.activePositions⟩, [], []⟩
  | Except.ok currentPositions =>
    let sync := syncPositionTracking st.activePositions currentPositions latestPrice
    let executed := if signal.action ≠ TAction.hold then [signal] else []
    ⟨⟨some ⟨signal.action, signal.reason⟩, sync.mirror⟩, sync.closedEvents, executed⟩

/-!
### Panic workflow — `handlePanicButton` / `executePanicClose`
-/

/-- The panic-relevant slice of agent state: the pending request
timestamp (ms) and the running flag. `Option` makes "at most one live
PanicRequest" structural. -/
structure PanicState where
  panicRequest : Option Nat
  isRunning : Bool
deriving DecidableEq, Repr

/-- Observable events of an emergency close, in order: the autonomous
loop stopping, then one close outcome per position. -/
inductive PanicEvent
  | stopped
  | closedOk (id : String) (pnl : ℚ)
  | closeFailed (id : String) (err : String)
deriving DecidableEq, Repr

/-- The `{success, message}` head of the command result. -/
structure PanicCloseResult where
  success : Bool
  message : String
deriving DecidableEq, Repr

/-- The confirmation window: 5 minutes in milliseconds. -/
def panicTimeoutMs : Nat := 5 * 60 * 1000

/-- `handlePanicButton`: with no open positions it returns early without
creating a request; otherwise it stores (replacing any previous one) a
request stamped `Date.now()`. -/
def handlePanicButton (st : PanicState) (now : Nat) (positions : List Position) : PanicState :=
  if positions.length = 0 then st
  else ⟨some now, st.isRunning⟩

/-- Whether a close event records a successful close. -/
def isClosedOk : PanicEvent → Bool
  | PanicEvent.closedOk _ _ => true
  | _ => false

/-- `executePanicClose`: reject (`not found` / `expired`) without closing
anything when no live request exists or the request is older than the
timeout (the expired branch also clears the request); otherwise stop the
autonomous loop first, close every position in order — each failure
caught and recorded individually (`closeFn` is the per-position close
outcome) — report partial success, and clear the request. -/
def executePanicClose (st : PanicState) (now : Nat) (positions : List Position)
    (closeFn : String → Except String ℚ) :
    PanicCloseResult × PanicState × List PanicEvent :=
  match st.panicRequest with
  | none =>
    (⟨false, "No panic request found. Use \"panic\" command first."⟩, st, [])
  | some t =>
    if now - t > panicTimeoutMs then
      (⟨false, "Panic request expired. Use \"panic\" command again if needed."⟩,
        ⟨none, st.isRunning⟩, [])
    else
      let stopEvents := if st.isRunning then [PanicEvent.stopped] else []
      let closeEvents := positions.map (fun p =>
        match closeFn p.id with
        | Except.ok pnl => PanicEvent.closedOk p.id pnl
        | Except.error e => PanicEvent.closeFailed p.id e)
      let successCount := (closeEvents.filter isClosedOk).length
      (⟨true, "Emergency close completed! " ++ toString successCount ++ "/" ++
          toString positions.length ++ " positions closed."⟩,
        ⟨none, false⟩, stopEvents ++ closeEvents)

end TradingAgent

/-!
## String containment (used to state reason-substring properties)
-/

/-- Case-normalised character list of a string. -/
def lowerChars (s : String) : List Char := s.data.map Char.toLower

/-- Substring test on character lists: `pat` occurs contiguously in `s`. -/
def containsChars : List Char → List Char → Bool
  | [], pat => pat.isEmpty
  | s@(_ :: t), pat => pat.isPrefixOf s || containsChars t pat

/-!
## Helper lemmas
-/

theorem foldl_min_le_acc (l : List ℚ) (acc : ℚ) : l.foldl min acc ≤ acc := by
  induction l generalizing acc with
  | nil => exact le_rfl
  | cons x t ih => exact le_trans (ih (min acc x)) (min_le_left acc x)

theorem foldl_min_le_mem {a : ℚ} {l : List ℚ} (acc : ℚ) (h : a ∈ l) :
    l.foldl min acc ≤ a := by
  induction l generalizing acc with
  | nil => cases h
  | cons x t ih =>
    rcases List.mem_cons.mp h with rfl | hmem
    · exact le_trans (foldl_min_le_acc t (min acc a)) (min_le_right acc a)
    · exact ih (min acc x) hmem

theorem listMin_le_of_mem {a : ℚ} {l : List ℚ} (h : a ∈ l) : listMin l ≤ a := by
  cases l with
  | nil => cases h
  | cons x t =>
    rcases List.mem_cons.mp h with rfl | hmem
    · exact foldl_min_le_acc t a
    · exact foldl_min_le_mem x hmem

theorem acc_le_foldl_max (l : List ℚ) (acc : ℚ) : acc ≤ l.foldl max acc := by
  induction l generalizing acc with
  | nil => exact le_rfl
  | cons x t ih => exact le_trans (le_max_left acc x) (ih (max acc x))

theorem mem_le_foldl_max {a : ℚ} {l : List ℚ} (acc : ℚ) (h : a ∈ l) :
    a ≤ l.foldl max acc := by
  induction l generalizing acc with
  | nil => cases h
  | cons x t ih =>
    rcases List.mem_cons.mp h with rfl | hmem
    · exact le_trans (le_max_right acc a) (acc_le_foldl_max t (max acc a))
    · exact ih (max acc x) hmem

theorem le_listMax_of_mem {a : ℚ} {l : List ℚ} (h : a ∈ l) : a ≤ listMax l := by
  cases l with
  | nil => cases h
  | cons x t =>
    rcases List.mem_cons.mp h with rfl | hmem
    · exact acc_le_foldl_max t a
    · exact mem_le_foldl_max x hmem

theorem foldl_min_mem (l : List ℚ) (acc : ℚ) :
    l.foldl min acc = acc ∨ l.foldl min acc ∈ l := by
  induction l generalizing acc with
  | nil => exact Or.inl rfl
  | cons x t ih =>
    rcases ih (min acc x) with h | h
    · rcases min_choice acc x with hm | hm
      · exact Or.inl (by rw [List.foldl_cons, h, hm])
      · exact Or.inr (by rw [List.foldl_cons, h, hm]; exact List.mem_cons_self x t)
    · exact Or.inr (List.mem_cons_of_mem x h)

theorem listMin_mem {l : List ℚ} (h : l ≠ []) : listMin l ∈ l := by
  cases l with
  | nil => exact absurd rfl h
  | cons x t =>
    rcases foldl_min_mem t x with he | he
    · rw [listMin, he]; exact List.mem_cons_self x t
    · exact List.mem_cons_of_mem x he

theorem foldl_max_mem (l : List ℚ) (acc : ℚ) :
    l.foldl max acc = acc ∨ l.foldl max acc ∈ l := by
  induction l generalizing acc with
  | nil => exact Or.inl rfl
  | cons x t ih =>
    rcases ih (max acc x) with h | h
    · rcases max_choice acc x with hm | hm
      · exact Or.inl (by rw [List.foldl_cons, h, hm])
      · exact Or.inr (by rw [List.foldl_cons, h, hm]; exact List.mem_cons_self x t)
    · exact Or.inr (List.mem_cons_of_mem x h)

theorem listMax_mem {l : List ℚ} (h : l ≠ []) : listMax l ∈ l := by
  cases l with
  | nil => exact absurd rfl h
  | cons x t =>
    rcases foldl_max_mem t x with he | he
    · rw [listMax, he]; exact List.mem_cons_self x t
    · exact List.mem_cons_of_mem x he

/-- The whole-window minimum is never strictly greater than the minimum of
a nonempty prefix of the same window. -/
theorem listMin_le_listMin_take {l : List ℚ} {n : Nat} (h : l.take n ≠ []) :
    listMin l ≤ listMin (l.take n) :=
  listMin_le_of_mem ((List.take_sublist n l).subset (listMin_mem h))

/-- The whole-window maximum is never strictly smaller than the maximum of
a nonempty prefix of the same window. -/
theorem listMax_take_le_listMax {l : List ℚ} {n : Nat} (h : l.take n ≠ []) :
    listMax (l.take n) ≤ listMax l :=
  le_listMax_of_mem ((List.take_sublist n l).subset (listMax_mem h))

theorem mirrorHas_of_mem {m : Mirror} {e : String × Position} (h : e ∈ m) :
    mirrorHas m e.1 = true := by
  simp only [mirrorHas, List.any_eq_true]
  exact ⟨e, h, by simp⟩

/-- The divergence scan can never fire: its strict comparison asks the
whole-window oscillator extremum to be strictly beyond the extremum of a
prefix of the same window, which is impossible; both the bullish and the
bearish branch are dead and the no-divergence signal is always
returned. -/
theorem divergenceScan_eq_noSig (rp ov : List ℚ) (b s n : RuleSignal) :
    EnhancedTradingStrategy.divergenceScan rp ov b s n = n := by
  simp only [EnhancedTradingStrategy.divergenceScan]
  split
  · next sig hs =>
    exfalso
    split at hs
    · split at hs
      · split at hs
        · next hidx hlen hcmp =>
          have htake : ov.take (lastIndexOf ov (listMin ov)).toNat ≠ [] :=
            List.ne_nil_of_length_pos hlen.2
          exact absurd (listMin_le_listMin_take htake) (not_le.mpr hcmp.2)
        · exact Option.noConfusion hs
      · exact Option.noConfusion hs
    · exact Option.noConfusion hs
  · next hs =>
    split
    · next sig hs2 =>
      exfalso
      split at hs2
      · split at hs2
        · split at hs2
          · next hidx hlen hcmp =>
            have htake : ov.take (lastIndexOf ov (listMax ov)).toNat ≠ [] :=
              List.ne_nil_of_length_pos hlen.2
            exact absurd (listMax_take_le_listMax htake) (not_le.mpr hcmp.2)
          · exact Option.noConfusion hs2
        · exact Option.noConfusion hs2
      · exact Option.noConfusion hs2
    · rfl

/-- `canOpenPosition` on a successful fetch is exactly "first failing
check wins": it returns the reason of the first check (in source order)
whose failure condition holds, and approves otherwise. -/
theorem canOpen_eq_firstFail (st : RiskManager.RiskState) (ps : List Position)
    (q lev : ℚ) :
    RiskManager.canOpenPosition st (Except.ok ps) q lev =
      (match RiskManager.firstFailingCheck st ps q lev with
        | some k => ⟨false, RiskManager.checkReason k⟩
        | none => ⟨true, "All risk checks passed"⟩) := by
  by_cases h0 : ps.length ≥ st.positionLimit <;>
    by_cases h1 : q > st.maxPositionSize <;>
    by_cases h2 : lev > st.maxLeverage <;>
    by_cases h3 : |st.dailyLoss| ≥ st.maxDailyLoss <;>
    by_cases h4 : st.balance < q / lev + q * st.riskPerTrade / 100 <;>
    by_cases h5 : RiskManager.calculateDrawdown st.peakBalance st.balance >
      st.maxDrawdownPercentage <;>
    by_cases h6 : RiskManager.calculatePortfolioHeat st ps + st.riskPerTrade >
      st.portfolioHeatLimit <;>
    simp [RiskManager.canOpenPosition, RiskManager.firstFailingCheck,
      RiskManager.riskCheckOrder, RiskManager.checkFails, RiskManager.checkReason,
      List.find?, h0, h1, h2, h3, h4, h5, h6]

/-- Membership in the check order is exactly `k < 7`. -/
theorem mem_riskCheckOrder_iff (k : Nat) : k ∈ RiskManager.riskCheckOrder ↔ k < 7 := by
  simp only [RiskManager.riskCheckOrder, List.mem_cons, List.not_mem_nil, or_false]
  omega

/-- The gate approves exactly when none of the seven checks fails. -/
theorem canOpen_allowed_iff (st : RiskManager.RiskState) (ps : List Position)
    (q lev : ℚ) :
    (RiskManager.canOpenPosition st (Except.ok ps) q lev).allowed = true ↔
      ∀ k, k < 7 → RiskManager.checkFails st ps q lev k = false := by
  rw [canOpen_eq_firstFail]
  cases hf : RiskManager.firstFailingCheck st ps q lev with
  | some k =>
    have hk := List.find?_some hf
    have hkmem := List.mem_of_find?_eq_some hf
    constructor
    · intro h; exact absurd h (by simp)
    · intro hall
      exact absurd hk (by simp [hall k ((mem_riskCheckOrder_iff k).mp hkmem)])
  | none =>
    have hnone := List.find?_eq_none.mp hf
    constructor
    · intro _ k hk
      simpa using hnone k ((mem_riskCheckOrder_iff k).mpr hk)
    · intro _; rfl

/-- When check `i` fails and every earlier check passes, the scan stops
at `i`. -/
theorem firstFailing_of (st : RiskManager.RiskState) (ps : List Position)
    (q lev : ℚ) (i : Nat) (hi : i < 7)
    (hfail : RiskManager.checkFails st ps q lev i = true)
    (hmin : ∀ k, k < i → RiskManager.checkFails st ps q lev k = false) :
    RiskManager.firstFailingCheck st ps q lev = some i := by
  interval_cases i
  · simp [RiskManager.firstFailingCheck, RiskManager.riskCheckOrder, List.find?, hfail]
  · simp [RiskManager.firstFailingCheck, RiskManager.riskCheckOrder, List.find?, hfail,
      hmin 0 (by omega)]
  · simp [RiskManager.firstFailingCheck, RiskManager.riskCheckOrder, List.find?, hfail,
      hmin 0 (by omega), hmin 1 (by omega)]
  · simp [RiskManager.firstFailingCheck, RiskManager.riskCheckOrder, List.find?, hfail,
      hmin 0 (by omega), hmin 1 (by omega), hmin 2 (by omega)]
  · simp [RiskManager.firstFailingCheck, RiskManager.riskCheckOrder, List.find?, hfail,
      hmin 0 (by omega), hmin 1 (by omega), hmin 2 (by omega), hmin 3 (by omega)]
  · simp [RiskManager.firstFailingCheck, RiskManager.riskCheckOrder, List.find?, hfail,
      hmin 0 (by omega), hmin 1 (by omega), hmin 2 (by omega), hmin 3 (by omega),
      hmin 4 (by omega)]
  · simp [RiskManager.firstFailingCheck, RiskManager.riskCheckOrder, List.find?, hfail,
      hmin 0 (by omega), hmin 1 (by omega), hmin 2 (by omega), hmin 3 (by omega),
      hmin 4 (by omega), hmin 5 (by omega)]

/-- Drawdown is monotone in the recorded peak balance: raising the peak
(with the balance fixed and positive) can only raise the reported
drawdown. -/
theorem calculateDrawdown_mono_peak {p₁ p₂ b : ℚ} (hb : 0 < b) (h : p₁ ≤ p₂) :
    RiskManager.calculateDrawdown p₁ b ≤ RiskManager.calculateDrawdown p₂ b := by
  unfold RiskManager.calculateDrawdown
  have hm₁ : 0 < max p₁ b := lt_of_lt_of_le hb (le_max_right p₁ b)
  have hm₂ : 0 < max p₂ b := lt_of_lt_of_le hb (le_max_right p₂ b)
  have hle : max p₁ b ≤ max p₂ b := max_le_max h le_rfl
  have e₁ : (max p₁ b - b) / max p₁ b = 1 - b / max p₁ b := by
    rw [sub_div, div_self hm₁.ne']
  have e₂ : (max p₂ b - b) / max p₂ b = 1 - b / max p₂ b := by
    rw [sub_div, div_self hm₂.ne']
  have hone : 1 / max p₂ b ≤ 1 / max p₁ b := one_div_le_one_div_of_le hm₁ hle
  have hdiv : b / max p₂ b ≤ b / max p₁ b := by
    rw [div_eq_mul_one_div b (max p₂ b), div_eq_mul_one_div b (max p₁ b)]
    exact mul_le_mul_of_nonneg_left hone hb.le
  have h12 : 1 - b / max p₁ b ≤ 1 - b / max p₂ b := by linarith
  show (max p₁ b - b) / max p₁ b * 100 ≤ (max p₂ b - b) / max p₂ b * 100
  rw [e₁, e₂]
  exact mul_le_mul_of_nonneg_right h12 (by norm_num)

/-!
## Claim theorems
-/

/-- **C1**: when the authoritative position fetch of the decision cycle fails,
the cycle halts without trading: `lastDecision` becomes `HOLD` with a
reason containing "position tracking failure" (case-insensitively), the
mirrored position map is left exactly as it was, no trade is executed and
no reconciliation event is emitted; and the exchange client method
`getPositions`, when both API calls fail, propagates an error rather
than substituting any cached or synthetic position list. -/
theorem claim_C1_fetch_failure_halts :
    (∀ (st : TradingAgent.AgentState) (e : String) (lp : Option ℚ) (sig : TradeSignal),
      TradingAgent.makeAutonomousDecisionFromSync st (Except.error e) lp sig =
        ⟨⟨some ⟨TAction.hold, "Position tracking failure - trading halted for safety"⟩,
          st.activePositions⟩, [], []⟩) ∧
    containsChars (lowerChars "Position tracking failure - trading halted for safety")
      (lowerChars "position tracking failure") = true ∧
    (∀ e1 e2 : String,
      LNMarketsClient.getPositions (Except.error e1) (Except.error e2) =
        Except.error ("Cannot fetch positions from LN Markets API: " ++ e1)) :=
  ⟨fun _ _ _ _ => rfl, by decide, fun _ _ => rfl⟩

/-- **C2**: on a successful fetch, `canOpenPosition` evaluates its seven
checks in the fixed source order and returns the reason of the first
failing check; in particular, when two checks `i < j` both fail (and no
earlier check does), the returned reason is deterministically that of
check `i`. -/
theorem claim_C2_canOpen_fail_fast :
    (∀ (st : RiskManager.RiskState) (ps : List Position) (q lev : ℚ),
      RiskManager.canOpenPosition st (Except.ok ps) q lev =
        (match RiskManager.firstFailingCheck st ps q lev with
          | some k => ⟨false, RiskManager.checkReason k⟩
          | none => ⟨true, "All risk checks passed"⟩)) ∧
    (∀ (st : RiskManager.RiskState) (ps : List Position) (q lev : ℚ) (i j : Nat),
      i < j → j < 7 →
      RiskManager.checkFails st ps q lev i = true →
      RiskManager.checkFails st ps q lev j = true →
      (∀ k, k < i → RiskManager.checkFails st ps q lev k = false) →
      RiskManager.canOpenPosition st (Except.ok ps) q lev =
        ⟨false, RiskManager.checkReason i⟩) := by
  refine ⟨canOpen_eq_firstFail, ?_⟩
  intro st ps q lev i j hij hj hfi _ hmin
  rw [canOpen_eq_firstFail, firstFailing_of st ps q lev i (by omega) hfi hmin]

/-- Witness for C2 at a concrete state violating both the position-size
check (index 1) and the daily-loss check (index 3): the reported reason
is that of the earlier check. -/
theorem claim_C2_canOpen_fail_fast_witness :
    RiskManager.checkFails ⟨3, 2, 2, 5, 2, 6, 10, -10, 100, 100⟩ [] 5 1 1 = true ∧
    RiskManager.checkFails ⟨3, 2, 2, 5, 2, 6, 10, -10, 100, 100⟩ [] 5 1 3 = true ∧
    RiskManager.canOpenPosition ⟨3, 2, 2, 5, 2, 6, 10, -10, 100, 100⟩
      (Except.ok []) 5 1 = ⟨false, "Position size exceeds limit"⟩ := by
  refine ⟨by decide, by decide, ?_⟩
  have h := claim_C2_canOpen_fail_fast.2 ⟨3, 2, 2, 5, 2, 6, 10, -10, 100, 100⟩ [] 5 1 1 3
    (by omega) (by omega) (by decide) (by decide) (by decide)
  simpa [RiskManager.checkReason] using h

/-- **C8**: the gate is monotone toward its limits. For a fixed
configuration, moving exactly one risk input toward (or past) its limit —
the portfolio heat (with the open-position count unchanged), the
magnitude of the cumulative daily loss, or the drawdown (raised by
raising the recorded peak balance, the only state the drawdown check
depends on besides the balance) — can only flip the gate from allowed to
rejected, never the reverse. -/
theorem claim_C8_risk_gate_monotone :
    (∀ (st : RiskManager.RiskState) (q lev : ℚ) (ps₁ ps₂ : List Position),
      ps₁.length = ps₂.length →
      RiskManager.calculatePortfolioHeat st ps₁ ≤ RiskManager.calculatePortfolioHeat st ps₂ →
      (RiskManager.canOpenPosition st (Except.ok ps₂) q lev).allowed = true →
      (RiskManager.canOpenPosition st (Except.ok ps₁) q lev).allowed = true) ∧
    (∀ (st : RiskManager.RiskState) (q lev : ℚ) (ps : List Position) (d₁ d₂ : ℚ),
      |d₁| ≤ |d₂| →
      (RiskManager.canOpenPosition { st with dailyLoss := d₂ }
        (Except.ok ps) q lev).allowed = true →
      (RiskManager.canOpenPosition { st with dailyLoss := d₁ }
        (Except.ok ps) q lev).allowed = true) ∧
    (∀ (st : RiskManager.RiskState) (q lev : ℚ) (ps : List Position) (p₁ p₂ : ℚ),
      0 < st.balance → p₁ ≤ p₂ →
      (RiskManager.canOpenPosition { st with peakBalance := p₂ }
        (Except.ok ps) q lev).allowed = true →
      (RiskManager.canOpenPosition { st with peakBalance := p₁ }
        (Except.ok ps) q lev).allowed = true) := by
  refine ⟨?_, ?_, ?_⟩
  · intro st q lev ps₁ ps₂ hlen hheat hall
    rw [canOpen_allowed_iff] at hall ⊢
    intro k hk
    interval_cases k
    · have h := hall 0 (by omega)
      simp only [RiskManager.checkFails, decide_eq_false_iff_not] at h ⊢
      omega
    · simpa [RiskManager.checkFails] using hall 1 (by omega)
    · simpa [RiskManager.checkFails] using hall 2 (by omega)
    · simpa [RiskManager.checkFails] using hall 3 (by omega)
    · simpa [RiskManager.checkFails] using hall 4 (by omega)
    · simpa [RiskManager.checkFails] using hall 5 (by omega)
    · have h := hall 6 (by omega)
      simp only [RiskManager.checkFails, decide_eq_false_iff_not, not_lt] at h ⊢
      linarith
  · intro st q lev ps d₁ d₂ hd hall
    rw [canOpen_allowed_iff] at hall ⊢
    intro k hk
    interval_cases k
    · simpa [RiskManager.checkFails] using hall 0 (by omega)
    · simpa [RiskManager.checkFails] using hall 1 (by omega)
    · simpa [RiskManager.checkFails] using hall 2 (by omega)
    · have h := hall 3 (by omega)
      simp only [RiskManager.checkFails, decide_eq_false_iff_not, not_le] at h ⊢
      linarith
    · simpa [RiskManager.checkFails] using hall 4 (by omega)
    · simpa [RiskManager.checkFails, RiskManager.calculateDrawdown] using hall 5 (by omega)
    · simpa [RiskManager.checkFails, RiskManager.calculatePortfolioHeat] using
        hall 6 (by omega)
  · intro st q lev ps p₁ p₂ hb hp hall
    rw [canOpen_allowed_iff] at hall ⊢
    intro k hk
    interval_cases k
    · simpa [RiskManager.checkFails] using hall 0 (by omega)
    · simpa [RiskManager.checkFails] using hall 1 (by omega)
    · simpa [RiskManager.checkFails] using hall 2 (by omega)
    · simpa [RiskManager.checkFails] using hall 3 (by omega)
    · simpa [RiskManager.checkFails] using hall 4 (by omega)
    · have h := hall 5 (by omega)
      simp only [RiskManager.checkFails, decide_eq_false_iff_not, not_lt] at h ⊢
      exact le_trans (calculateDrawdown_mono_peak hb hp) h
    · simpa [RiskManager.checkFails, RiskManager.calculatePortfolioHeat] using
        hall 6 (by omega)

/-- Witness for C8: at a concrete state that the gate approves with daily
loss `-2`, the daily-loss leg of the monotonicity theorem yields approval
with the smaller-magnitude daily loss `-1`. -/
theorem claim_C8_risk_gate_monotone_witness :
    |(-1 : ℚ)| ≤ |(-2 : ℚ)| ∧
    (RiskManager.canOpenPosition
      { positionLimit := 3, maxPositionSize := 10, maxLeverage := 2, maxDailyLoss := 5,
        riskPerTrade := 2, portfolioHeatLimit := 6, maxDrawdownPercentage := 10,
        dailyLoss := -1, peakBalance := 100, balance := 100 : RiskManager.RiskState }
      (Except.ok []) 1 1).allowed = true :=
  ⟨by decide,
    claim_C8_risk_gate_monotone.2.1
      { positionLimit := 3, maxPositionSize := 10, maxLeverage := 2, maxDailyLoss := 5,
        riskPerTrade := 2, portfolioHeatLimit := 6, maxDrawdownPercentage := 10,
        dailyLoss := 0, peakBalance := 100, balance := 100 : RiskManager.RiskState }
      1 1 [] (-1) (-2) (by norm_num)
      (by norm_num [RiskManager.canOpenPosition, RiskManager.calculateDrawdown,
        RiskManager.calculatePortfolioHeat])⟩

/-- **C10**: the public decision entry points are total and fail closed:
an internal exception inside `canOpenPosition` yields
`{allowed: false, reason: "Risk check error"}`, and one inside either
`analyze` of either strategy yields a `HOLD` signal with confidence `0` and
reason `"Analysis error"` — an unexpected error can never authorize or
emit a trade. -/
theorem claim_C10_fail_closed :
    (∀ (st : RiskManager.RiskState) (e : String) (q lev : ℚ),
      RiskManager.canOpenPosition st (Except.error e) q lev =
        ⟨false, "Risk check error"⟩) ∧
    (∀ (rp : ℚ) (u : Unit),
      EnhancedTradingStrategy.analyze rp (Except.error u) =
        ⟨TAction.hold, 0, "Analysis error"⟩) ∧
    (∀ (f : ℚ → ℚ) (cfg : MovingAverageStrategy.Config) (n : Nat) (u : Unit),
      MovingAverageStrategy.analyze f cfg n (Except.error u) =
        ⟨TAction.hold, 0, "Analysis error"⟩) :=
  ⟨fun _ _ _ _ => rfl, fun _ _ => rfl, fun _ _ _ _ => rfl⟩

/-- **C4**: reconciliation replaces the mirror wholesale and is
idempotent. The resulting mirror is exactly the map built from the
fetched list, regardless of the previous mirror; re-running the sync on
its own output produces zero externally-closed and zero newly-opened
events; and every externally-closed position is settled with the latest
known price (entry price when none is known) as the estimated exit. -/
theorem claim_C4_reconciliation_idempotent :
    (∀ (prev : Mirror) (cur : List Position) (lp : Option ℚ),
      (TradingAgent.syncPositionTracking prev cur lp).mirror = mkMirror cur) ∧
    (∀ (cur : List Position) (lp : Option ℚ),
      (TradingAgent.syncPositionTracking (mkMirror cur) cur lp).closedEvents = [] ∧
      (TradingAgent.syncPositionTracking (mkMirror cur) cur lp).openedEvents = []) ∧
    (∀ (prev : Mirror) (cur : List Position) (lp : Option ℚ),
      (TradingAgent.syncPositionTracking prev cur lp).closedEvents =
        (prev.filter (fun e => !(mirrorHas (mkMirror cur) e.1))).map
          (fun e => ⟨e.1, e.2.side, e.2.quantity, e.2.price,
            TradingAgent.estimatedExit lp e.2.price⟩)) := by
  refine ⟨fun _ _ _ => rfl, ?_, fun _ _ _ => rfl⟩
  intro cur lp
  have hf : ∀ m : Mirror, m.filter (fun e => !(mirrorHas m e.1)) = [] := by
    intro m
    rw [List.filter_eq_nil_iff]
    intro a ha
    simp [mirrorHas_of_mem ha]
  constructor
  · show ((mkMirror cur).filter (fun e => !(mirrorHas (mkMirror cur) e.1))).map _ = []
    rw [hf]
    rfl
  · show ((mkMirror cur).filter (fun e => !(mirrorHas (mkMirror cur) e.1))).map _ = []
    rw [hf]
    rfl

/-- **C3**: `confirm-panic` with no live request, or more than five
minutes after the request timestamp, is rejected with the specific
not-found / expired message and closes nothing (the expired branch also
clears the request); within the window it succeeds — the autonomous loop
stop event precedes every close, the close outcome of each position is
recorded individually with failures tolerated, the result reports the
partial success count, and the request is cleared (`Option` makes "at
most one live PanicRequest" structural; `handlePanicButton` replaces
rather than accumulates). -/
theorem claim_C3_panic_confirmation :
    (∀ (st : TradingAgent.PanicState) (now : Nat) (ps : List Position)
      (closeFn : String → Except String ℚ),
      st.panicRequest = none →
      TradingAgent.executePanicClose st now ps closeFn =
        (⟨false, "No panic request found. Use \"panic\" command first."⟩, st, [])) ∧
    (∀ (st : TradingAgent.PanicState) (t now : Nat) (ps : List Position)
      (closeFn : String → Except String ℚ),
      st.panicRequest = some t → now - t > TradingAgent.panicTimeoutMs →
      TradingAgent.executePanicClose st now ps closeFn =
        (⟨false, "Panic request expired. Use \"panic\" command again if needed."⟩,
          ⟨none, st.isRunning⟩, [])) ∧
    (∀ (st : TradingAgent.PanicState) (t now : Nat) (ps : List Position)
      (closeFn : String → Except String ℚ),
      st.panicRequest = some t → now - t ≤ TradingAgent.panicTimeoutMs →
      TradingAgent.executePanicClose st now ps closeFn =
        (⟨true, "Emergency close completed! " ++
            toString (((ps.map (fun p =>
              match closeFn p.id with
              | Except.ok pnl => TradingAgent.PanicEvent.closedOk p.id pnl
              | Except.error e => TradingAgent.PanicEvent.closeFailed p.id e)).filter
                TradingAgent.isClosedOk).length) ++ "/" ++ toString ps.length ++
            " positions closed."⟩,
          ⟨none, false⟩,
          (if st.isRunning then [TradingAgent.PanicEvent.stopped] else []) ++
            ps.map (fun p =>
              match closeFn p.id with
              | Except.ok pnl => TradingAgent.PanicEvent.closedOk p.id pnl
              | Except.error e => TradingAgent.PanicEvent.closeFailed p.id e))) ∧
    (∀ (st : TradingAgent.PanicState) (now : Nat) (ps : List Position),
      (TradingAgent.handlePanicButton st now ps).panicRequest =
        if ps.length = 0 then st.panicRequest else some now) := by
  refine ⟨?_, ?_, ?_, ?_⟩
  · intro st now ps closeFn h
    simp [TradingAgent.executePanicClose, h]
  · intro st t now ps closeFn h hgt
    simp [TradingAgent.executePanicClose, h, hgt]
  · intro st t now ps closeFn h hle
    have hnot : ¬ (now - t > TradingAgent.panicTimeoutMs) := not_lt.mpr hle
    simp [TradingAgent.executePanicClose, h, hnot]
  · intro st now ps
    unfold TradingAgent.handlePanicButton
    split <;> simp

/-- Witness for C3 at concrete inputs: a confirm with no request is
rejected; a confirm at 6 minutes is rejected as expired and clears the
request; a confirm at 4 minutes stops the loop first, closes both
positions (one success, one tolerated failure), reports `1/2`, and
clears the request. -/
theorem claim_C3_panic_confirmation_witness :
    TradingAgent.executePanicClose ⟨none, true⟩ 0 [] (fun _ => Except.error "x") =
      (⟨false, "No panic request found. Use \"panic\" command first."⟩,
        ⟨none, true⟩, []) ∧
    TradingAgent.executePanicClose ⟨some 0, true⟩ 360000 [] (fun _ => Except.error "x") =
      (⟨false, "Panic request expired. Use \"panic\" command again if needed."⟩,
        ⟨none, true⟩, []) ∧
    TradingAgent.executePanicClose ⟨some 0, true⟩ 240000
      [⟨"a", "b", 1, 100⟩, ⟨"b", "s", 2, 100⟩]
      (fun id => if id = "a" then Except.ok 5 else Except.error "boom") =
      (⟨true, "Emergency close completed! 1/2 positions closed."⟩, ⟨none, false⟩,
        [TradingAgent.PanicEvent.stopped, TradingAgent.PanicEvent.closedOk "a" 5,
          TradingAgent.PanicEvent.closeFailed "b" "boom"]) ∧
    (TradingAgent.handlePanicButton ⟨some 1, true⟩ 99 [⟨"a", "b", 1, 100⟩]).panicRequest =
      some 99 := by
  refine ⟨?_, ?_, ?_, ?_⟩
  · exact claim_C3_panic_confirmation.1 ⟨none, true⟩ 0 [] (fun _ => Except.error "x") rfl
  · exact claim_C3_panic_confirmation.2.1 ⟨some 0, true⟩ 0 360000 []
      (fun _ => Except.error "x") rfl (by decide)
  · have h := claim_C3_panic_confirmation.2.2.1 ⟨some 0, true⟩ 0 240000
      [⟨"a", "b", 1, 100⟩, ⟨"b", "s", 2, 100⟩]
      (fun id => if id = "a" then Except.ok 5 else Except.error "boom") rfl (by decide)
    exact h.trans (by decide)
  · exact (claim_C3_panic_confirmation.2.2.2 ⟨some 1, true⟩ 99
      [⟨"a", "b", 1, 100⟩]).trans (by decide)

/-- **C7** (code bug): the divergence rules cannot fire at all. The
source compares the whole-window oscillator extremum against the extremum
of the prefix of the same window before the extremum index, which can never be
strictly beyond it, so both `analyzeRSIDivergence` and
`analyzeMACDDivergence` return a `NEUTRAL` signal on *every* input — in
particular on a window realising the intended bullish divergence (price
sets a lower low while the oscillator trough rises). -/
theorem claim_C7_divergence_never_fires :
    (∀ (prices rsiData : List ℚ),
      (EnhancedTradingStrategy.analyzeRSIDivergence prices rsiData).dir =
        SigDir.neutral) ∧
    (∀ (prices : List ℚ) (macdData : List EnhancedTradingStrategy.MacdPoint),
      (EnhancedTradingStrategy.analyzeMACDDivergence prices macdData).dir =
        SigDir.neutral) ∧
    (EnhancedTradingStrategy.analyzeRSIDivergence
      [10, 6, 8, 9, 9, 9, 9, 9, 5, 9] [9, 2, 8, 8, 8, 8, 8, 8, 3, 8] =
      ⟨SigDir.neutral, 0, "No RSI divergence", none⟩) := by
  refine ⟨?_, ?_, by decide⟩
  · intro prices rsiData
    unfold EnhancedTradingStrategy.analyzeRSIDivergence
    split
    · rfl
    · rw [divergenceScan_eq_noSig]
  · intro prices macdData
    unfold EnhancedTradingStrategy.analyzeMACDDivergence
    split
    · rfl
    · rw [divergenceScan_eq_noSig]

/-- Confidence of an enhanced-strategy signal is clamped into `[0, 1]`. -/
theorem createSignalEnh_conf_bounds (a : TAction) (c : ℚ) (r : String) :
    0 ≤ (EnhancedTradingStrategy.createSignal a c r).confidence ∧
      (EnhancedTradingStrategy.createSignal a c r).confidence ≤ 1 :=
  ⟨le_min (le_max_right c 0) zero_le_one, min_le_right _ 1⟩

/-- The `[0, 1]` clamp is the identity on `min y 1` when `y` is
nonnegative. -/
theorem clamp_min_formula (y : ℚ) (hy : 0 ≤ y) :
    min (max (min y 1) 0) 1 = min y 1 := by
  rw [max_eq_left (le_min hy zero_le_one), min_eq_left (min_le_right y 1)]

/-- **C5**: every indicator returns `null` — not a number, not an error —
when the window is shorter than its required period (`period + 1`
samples for RSI); the basic strategy maps an unavailable indicator value
to the weight-0 `NEUTRAL` no-signal (never a numeric zero), and on a
window shorter than 30 samples any non-HOLD output of `analyze` is the
demo-mode forced signal, never one derived from an indicator. -/
theorem claim_C5_insufficient_data_neutral :
    (∀ (hist : List ℚ) (period : Nat), hist.length < period →
      MarketData.calculateSMA hist period = none) ∧
    (∀ (hist : List ℚ) (period : Nat), hist.length < period →
      MarketData.calculateEMA hist period = none) ∧
    (∀ (hist : List ℚ) (period : Nat), hist.length < period + 1 →
      MarketData.calculateRSI hist period = none) ∧
    (∀ (f : ℚ → ℚ) (hist : List ℚ) (period : Nat) (sd : ℚ), hist.length < period →
      MarketData.calculateBollingerBands f hist period sd = none) ∧
    (∀ (f : ℚ → ℚ) (hist : List ℚ) (period : Nat), hist.length < period →
      MarketData.getVolatility f hist period = none) ∧
    (∀ (ma : Option ℚ), MovingAverageStrategy.checkMACrossover none ma =
      ⟨SigDir.neutral, 0, "MA data unavailable", none⟩) ∧
    (∀ (cfg : MovingAverageStrategy.Config), MovingAverageStrategy.checkRSI cfg none =
      ⟨SigDir.neutral, 0, "RSI unavailable", none⟩) ∧
    (∀ (cp : Option ℚ), MovingAverageStrategy.checkBollingerBands cp none =
      ⟨SigDir.neutral, 0, "BB data unavailable", none⟩) ∧
    (∀ (f : ℚ → ℚ) (cfg : MovingAverageStrategy.Config) (n : Nat)
      (cp : Option ℚ) (hist : List ℚ),
      hist.length < 30 →
      (MovingAverageStrategy.analyzeBody f cfg n cp hist).action ≠ TAction.hold →
      (MovingAverageStrategy.analyzeBody f cfg n cp hist).reason =
        "DEMO: Forced trade execution test") := by
  refine ⟨?_, ?_, ?_, ?_, ?_, fun _ => rfl, fun _ => rfl, fun _ => rfl, ?_⟩
  · intro hist period h
    simp [MarketData.calculateSMA, h]
  · intro hist period h
    simp [MarketData.calculateEMA, h]
  · intro hist period h
    simp [MarketData.calculateRSI, h]
  · intro f hist period sd h
    simp [MarketData.calculateBollingerBands, h]
  · intro f hist period h
    simp [MarketData.getVolatility, h]
  · intro f cfg n cp hist hlen hact
    by_cases hcp : qtruthy cp = true
    · simp [MovingAverageStrategy.analyzeBody, MovingAverageStrategy.createSignal, hcp]
    · exfalso
      apply hact
      simp [MovingAverageStrategy.analyzeBody, MovingAverageStrategy.createSignal,
        MovingAverageStrategy.hasEnoughData, MarketData.calculateSMA, hlen, hcp]

/-- Witness for C5: a two-sample window yields `null` for a 5-period SMA,
and the only non-HOLD a one-sample window can produce from the basic
strategy is the demo override. -/
theorem claim_C5_insufficient_data_neutral_witness :
    MarketData.calculateSMA [1, 2] 5 = none ∧
    (MovingAverageStrategy.analyzeBody (fun q => q) ⟨30, 70⟩ 0 (some 5) [5]).reason =
      "DEMO: Forced trade execution test" :=
  ⟨claim_C5_insufficient_data_neutral.1 [1, 2] 5 (by decide),
    claim_C5_insufficient_data_neutral.2.2.2.2.2.2.2.2 (fun q => q) ⟨30, 70⟩ 0
      (some 5) [5] (by decide) (by decide)⟩

/-- **C6**: both combiners accumulate BUY and SELL contributions
separately as `weight × strength` sums; the action is `BUY` iff
`net = buy − sell` exceeds the threshold of the strategy, `SELL` iff it is
below its negation, `HOLD` otherwise; the enhanced confidence equals
`min(|net| + holdWeight·0.1, 1)` whenever that quantity is nonnegative
and always lies in `[0, 1]`; and the enhanced threshold (`0.15`) is
strictly higher than the basic one (`0.1`). -/
theorem claim_C6_weighted_combination (sigs : List RuleSignal) :
    (((EnhancedTradingStrategy.combineSignals sigs).action = TAction.buy) ↔
      MovingAverageStrategy.buyWeight sigs - MovingAverageStrategy.sellWeight sigs >
        EnhancedTradingStrategy.enhancedThreshold) ∧
    (((EnhancedTradingStrategy.combineSignals sigs).action = TAction.sell) ↔
      MovingAverageStrategy.buyWeight sigs - MovingAverageStrategy.sellWeight sigs <
        -EnhancedTradingStrategy.enhancedThreshold) ∧
    (0 ≤ (EnhancedTradingStrategy.combineSignals sigs).confidence ∧
      (EnhancedTradingStrategy.combineSignals sigs).confidence ≤ 1) ∧
    (0 ≤ |MovingAverageStrategy.buyWeight sigs - MovingAverageStrategy.sellWeight sigs| +
        EnhancedTradingStrategy.holdWeight sigs * 0.1 →
      (EnhancedTradingStrategy.combineSignals sigs).confidence =
        min (|MovingAverageStrategy.buyWeight sigs -
            MovingAverageStrategy.sellWeight sigs| +
          EnhancedTradingStrategy.holdWeight sigs * 0.1) 1) ∧
    (((MovingAverageStrategy.combineSignals sigs).action = TAction.buy) ↔
      MovingAverageStrategy.buyWeight sigs - MovingAverageStrategy.sellWeight sigs >
        MovingAverageStrategy.basicThreshold) ∧
    (((MovingAverageStrategy.combineSignals sigs).action = TAction.sell) ↔
      MovingAverageStrategy.buyWeight sigs - MovingAverageStrategy.sellWeight sigs <
        -MovingAverageStrategy.basicThreshold) ∧
    EnhancedTradingStrategy.enhancedThreshold > MovingAverageStrategy.basicThreshold := by
  by_cases hs : sigs.isEmpty
  · have hnil : sigs = [] := by
      cases sigs with
      | nil => rfl
      | cons a t => simp [List.isEmpty] at hs
    subst hnil
    refine ⟨?_, ?_, ?_, ?_, ?_, ?_, ?_⟩ <;>
      simp [EnhancedTradingStrategy.combineSignals, MovingAverageStrategy.combineSignals,
        EnhancedTradingStrategy.createSignal, MovingAverageStrategy.createSignal,
        MovingAverageStrategy.buyWeight, MovingAverageStrategy.sellWeight,
        EnhancedTradingStrategy.holdWeight, listSum,
        EnhancedTradingStrategy.enhancedThreshold,
        MovingAverageStrategy.basicThreshold] <;> norm_num
  · have hact : (EnhancedTradingStrategy.combineSignals sigs).action =
        (if MovingAverageStrategy.buyWeight sigs - MovingAverageStrategy.sellWeight sigs >
            EnhancedTradingStrategy.enhancedThreshold then TAction.buy
          else if MovingAverageStrategy.buyWeight sigs -
              MovingAverageStrategy.sellWeight sigs <
              -EnhancedTradingStrategy.enhancedThreshold then TAction.sell
          else TAction.hold) := by
      unfold EnhancedTradingStrategy.combineSignals
      rw [if_neg hs]
      dsimp only
      split_ifs <;> rfl
    have hactB : (MovingAverageStrategy.combineSignals sigs).action =
        (if MovingAverageStrategy.buyWeight sigs - MovingAverageStrategy.sellWeight sigs >
            MovingAverageStrategy.basicThreshold then TAction.buy
          else if MovingAverageStrategy.buyWeight sigs -
              MovingAverageStrategy.sellWeight sigs <
              -MovingAverageStrategy.basicThreshold then TAction.sell
          else TAction.hold) := by
      unfold MovingAverageStrategy.combineSignals
      rw [if_neg hs]
      dsimp only
      split_ifs <;> rfl
    have hconf : (EnhancedTradingStrategy.combineSignals sigs).confidence =
        min (max (min (|MovingAverageStrategy.buyWeight sigs -
            MovingAverageStrategy.sellWeight sigs| +
          EnhancedTradingStrategy.holdWeight sigs * 0.1) 1) 0) 1 := by
      unfold EnhancedTradingStrategy.combineSignals
      rw [if_neg hs]
      dsimp only
      split_ifs <;> rfl
    refine ⟨?_, ?_, ?_, ?_, ?_, ?_, by norm_num [EnhancedTradingStrategy.enhancedThreshold,
      MovingAverageStrategy.basicThreshold]⟩
    · rw [hact]
      split_ifs with h1 h2 <;> simp [h1]
    · rw [hact]
      split_ifs with h1 h2
      · constructor
        · intro hx
          exact absurd hx (by simp)
        · intro hx
          exfalso
          have := lt_trans hx (lt_of_le_of_lt (by norm_num
            [EnhancedTradingStrategy.enhancedThreshold] :
            -EnhancedTradingStrategy.enhancedThreshold ≤
              EnhancedTradingStrategy.enhancedThreshold) h1)
          exact lt_irrefl _ this
      · simp [h2]
      · simp [h2]
    · rw [hconf]
      exact ⟨le_min (le_max_right _ 0) zero_le_one, min_le_right _ 1⟩
    · intro hy
      rw [hconf]
      exact clamp_min_formula _ hy
    · rw [hactB]
      split_ifs with h1 h2 <;> simp [h1]
    · rw [hactB]
      split_ifs with h1 h2
      · constructor
        · intro hx
          exact absurd hx (by simp)
        · intro hx
          exfalso
          have := lt_trans hx (lt_of_le_of_lt (by norm_num
            [MovingAverageStrategy.basicThreshold] :
            -MovingAverageStrategy.basicThreshold ≤
              MovingAverageStrategy.basicThreshold) h1)
          exact lt_irrefl _ this
      · simp [h2]
      · simp [h2]

/-- Witness for C6 at one concrete BUY rule signal: the action is `BUY`
and the confidence matches the `min(|net| + holdWeight·0.1, 1)`
formula. -/
theorem claim_C6_weighted_combination_witness :
    ((EnhancedTradingStrategy.combineSignals [⟨SigDir.buy, 0.3, "r", none⟩]).action =
      TAction.buy) ∧
    (EnhancedTradingStrategy.combineSignals [⟨SigDir.buy, 0.3, "r", none⟩]).confidence =
      min (|MovingAverageStrategy.buyWeight [⟨SigDir.buy, 0.3, "r", none⟩] -
          MovingAverageStrategy.sellWeight [⟨SigDir.buy, 0.3, "r", none⟩]| +
        EnhancedTradingStrategy.holdWeight [⟨SigDir.buy, 0.3, "r", none⟩] * 0.1) 1 :=
  ⟨(claim_C6_weighted_combination [⟨SigDir.buy, 0.3, "r", none⟩]).1.mpr
      (by simp [MovingAverageStrategy.buyWeight, MovingAverageStrategy.sellWeight,
        MovingAverageStrategy.effStrength, listSum, List.filter,
        EnhancedTradingStrategy.enhancedThreshold]; norm_num),
    (claim_C6_weighted_combination [⟨SigDir.buy, 0.3, "r", none⟩]).2.2.2.1
      (by simp [MovingAverageStrategy.buyWeight, MovingAverageStrategy.sellWeight,
        EnhancedTradingStrategy.holdWeight, MovingAverageStrategy.effStrength, listSum,
        List.filter])⟩

/-- **C9**: within one cycle, when three or more collected rule signals
agree on a direction, exactly one fixed-weight (`0.1`) bonus signal in
that direction is appended to the combination (BUY takes precedence when
both directions qualify); when fewer than three agree in each direction,
nothing is appended — and `analyzeAllSignals` is precisely this append
applied to the collected rule signals of the cycle. -/
theorem claim_C9_confluence_bonus (sigs : List RuleSignal) :
    ((sigs.filter (fun s => s.dir = SigDir.buy)).length ≥ 3 →
      sigs ++ (if (EnhancedTradingStrategy.analyzeConfluence sigs).dir ≠ SigDir.neutral
          then [EnhancedTradingStrategy.analyzeConfluence sigs] else []) =
        sigs ++ [⟨SigDir.buy, 0.1, "Strong bullish confluence",
          some (min (((sigs.filter (fun s => s.dir = SigDir.buy)).length : ℚ) / 5) 1)⟩]) ∧
    ((sigs.filter (fun s => s.dir = SigDir.buy)).length < 3 →
      (sigs.filter (fun s => s.dir = SigDir.sell)).length ≥ 3 →
      sigs ++ (if (EnhancedTradingStrategy.analyzeConfluence sigs).dir ≠ SigDir.neutral
          then [EnhancedTradingStrategy.analyzeConfluence sigs] else []) =
        sigs ++ [⟨SigDir.sell, 0.1, "Strong bearish confluence",
          some (min (((sigs.filter (fun s => s.dir = SigDir.sell)).length : ℚ) / 5) 1)⟩]) ∧
    ((sigs.filter (fun s => s.dir = SigDir.buy)).length < 3 →
      (sigs.filter (fun s => s.dir = SigDir.sell)).length < 3 →
      sigs ++ (if (EnhancedTradingStrategy.analyzeConfluence sigs).dir ≠ SigDir.neutral
          then [EnhancedTradingStrategy.analyzeConfluence sigs] else []) = sigs) ∧
    (∀ (ind : EnhancedTradingStrategy.Indicators) (cp : ℚ),
      EnhancedTradingStrategy.analyzeAllSignals ind cp =
        EnhancedTradingStrategy.baseSignals ind cp ++
          (if (EnhancedTradingStrategy.analyzeConfluence
              (EnhancedTradingStrategy.baseSignals ind cp)).dir ≠ SigDir.neutral
            then [EnhancedTradingStrategy.analyzeConfluence
              (EnhancedTradingStrategy.baseSignals ind cp)] else [])) := by
  refine ⟨?_, ?_, ?_, fun _ _ => rfl⟩
  · intro hbuy
    simp [EnhancedTradingStrategy.analyzeConfluence, hbuy]
  · intro hbuy hsell
    have hnb : ¬ ((sigs.filter (fun s => s.dir = SigDir.buy)).length ≥ 3) := by omega
    simp [EnhancedTradingStrategy.analyzeConfluence, hnb, hsell]
  · intro hbuy hsell
    have hnb : ¬ ((sigs.filter (fun s => s.dir = SigDir.buy)).length ≥ 3) := by omega
    have hns : ¬ ((sigs.filter (fun s => s.dir = SigDir.sell)).length ≥ 3) := by omega
    simp [EnhancedTradingStrategy.analyzeConfluence, hnb, hns]

/-- Witness for C9: three agreeing BUY rule signals get exactly one
fixed-weight bullish bonus appended. -/
theorem claim_C9_confluence_bonus_witness :
    [(⟨SigDir.buy, 0.3, "a", none⟩ : RuleSignal), ⟨SigDir.buy, 0.2, "b", none⟩,
        ⟨SigDir.buy, 0.1, "c", none⟩] ++
      (if (EnhancedTradingStrategy.analyzeConfluence
          [⟨SigDir.buy, 0.3, "a", none⟩, ⟨SigDir.buy, 0.2, "b", none⟩,
            ⟨SigDir.buy, 0.1, "c", none⟩]).dir ≠ SigDir.neutral
        then [EnhancedTradingStrategy.analyzeConfluence
          [⟨SigDir.buy, 0.3, "a", none⟩, ⟨SigDir.buy, 0.2, "b", none⟩,
            ⟨SigDir.buy, 0.1, "c", none⟩]] else []) =
    [⟨SigDir.buy, 0.3, "a", none⟩, ⟨SigDir.buy, 0.2, "b", none⟩,
      ⟨SigDir.buy, 0.1, "c", none⟩,
      ⟨SigDir.buy, 0.1, "Strong bullish confluence",
        some (min ((([(⟨SigDir.buy, 0.3, "a", none⟩ : RuleSignal),
          ⟨SigDir.buy, 0.2, "b", none⟩, ⟨SigDir.buy, 0.1, "c", none⟩].filter
            (fun s => s.dir = SigDir.buy)).length : ℚ) / 5) 1)⟩] :=
  (claim_C9_confluence_bonus
    [⟨SigDir.buy, 0.3, "a", none⟩, ⟨SigDir.buy, 0.2, "b", none⟩,
      ⟨SigDir.buy, 0.1, "c", none⟩]).1 (by decide)
